import Mathlib

/-!
Shallow embedding of the barcoder_api repository (src/app/main.py and
src/test.py) and proofs about its request-handling pipeline.

Conventions of the embedding:
* Python strings are Lean `String` (a wrapper around `List Char`); slicing
  `s[:100]` is `List.take 100` on the character list.
* Python dicts with string keys are association lists `List (String × String)`;
  `d.get(k, "")` is `(d.lookup k).getD ""` and `k in d and d[k]` (truthiness of
  a string value) is a lookup that must return a non-empty string.
* The two sources of per-request nondeterminism, `uuid.uuid4()` and
  `datetime.utcnow().isoformat()`, are threaded through the handlers as
  explicit parameters `uuid` and `now`.
* FastAPI evaluates the `Query(...)` constraints declared in a handler's
  signature before the handler body runs; a violated constraint produces a
  validation-error response and the body is never entered.  The embedding
  makes this explicit: each handler first checks its declared bounds and
  returns `validationError` without building any encoder call.
* The external `qrcode` library call is modelled by an `EncodeCall` record
  holding exactly the payload handed to `qr.add_data` and the configuration
  handed to `qrcode.QRCode`; the PNG bytes themselves are outside the model.
-/

/-! ### Filename sanitizer, src/app/main.py lines 36-39 -/

/-- The character class of the regex `[\\/*?:"<>|]` in `sanitize_filename`. -/
def forbiddenChars : List Char := ['\\', '/', '*', '?', ':', '\"', '<', '>', '|']

/-- Per-character action of `re.sub(r'[\\/*?:"<>|]', "_", filename)`. -/
def substChar (c : Char) : Char := if c ∈ forbiddenChars then '_' else c

/-- `sanitize_filename`: substitute the forbidden characters, then `[:100]`. -/
def sanitize_filename (filename : String) : String :=
  String.mk ((filename.data.map substChar).take 100)

/-! ### Vehicle-data validation, src/app/main.py lines 41-48 -/

def required_fields : List String :=
  ["brandid", "vehiclename", "modelnumber", "regnumber",
   "vehicletype", "vehiclesubtype", "varient", "transmission",
   "chasisnum", "enginenumber"]

/-- `validate_vehicle_data`: `all(field in data and data[field] for field in
required_fields)`; a present-but-empty string is falsy in Python. -/
def validate_vehicle_data (data : List (String × String)) : Bool :=
  required_fields.all (fun f =>
    match data.lookup f with
    | some v => v != ""
    | none => false)

/-- `data.get(key, '')` on a string-valued dict. -/
def dictGet (data : List (String × String)) (key : String) : String :=
  (data.lookup key).getD ""

/-! ### Vehicle payload composer, src/app/main.py lines 50-73 -/

/-- The `system` object of the QR payload, lines 68-71. -/
def systemFields : List (String × String) :=
  [("generated_by", "QR Code API"), ("version", "2.0")]

/-- The `vehicle` object of the QR payload, lines 55-67: renamed keys,
values drawn from the request dict with `data.get(..., '')`. -/
def vehicleFields (data : List (String × String)) : List (String × String) :=
  [("brand", dictGet data "brandid"),
   ("name", dictGet data "vehiclename"),
   ("model", dictGet data "modelnumber"),
   ("reg", dictGet data "regnumber"),
   ("type", dictGet data "vehicletype"),
   ("subtype", dictGet data "vehiclesubtype"),
   ("variant", dictGet data "varient"),
   ("transmission", dictGet data "transmission"),
   ("chassis", dictGet data "chasisnum"),
   ("engine", dictGet data "enginenumber"),
   ("description", dictGet data "description")]

/-- The dict built in `generate_vehicle_qr_data` before `json.dumps`. -/
structure VehiclePayload where
  id : String
  timestamp : String
  vehicle : List (String × String)
  system : List (String × String)
deriving DecidableEq, Repr

def mkVehiclePayload (uuid now : String) (data : List (String × String)) :
    VehiclePayload :=
  { id := uuid, timestamp := now, vehicle := vehicleFields data,
    system := systemFields }

/-- Escaping of one character inside a JSON string, as `json.dumps` performs
it for the characters that can occur here. -/
def jsonEscapeChar (c : Char) : String :=
  if c = '\"' then "\\\""
  else if c = '\\' then "\\\\"
  else if c = '\n' then "\\n"
  else if c = '\t' then "\\t"
  else if c = '\r' then "\\r"
  else String.mk [c]

def jsonStr (s : String) : String :=
  "\"" ++ String.join (s.data.map jsonEscapeChar) ++ "\""

/-- `json.dumps` of a flat string-to-string object, with the default
separators `", "` and `": "` and keys in insertion order. -/
def jsonObjFlat (fields : List (String × String)) : String :=
  "\x7b" ++
    String.intercalate ", "
      (fields.map (fun kv => jsonStr kv.1 ++ ": " ++ jsonStr kv.2)) ++
  "\x7d"

/-- `json.dumps(qr_data)` for the fixed shape built on lines 52-72. -/
def dumpsPayload (p : VehiclePayload) : String :=
  "\x7b" ++ jsonStr "id" ++ ": " ++ jsonStr p.id ++ ", " ++
    jsonStr "timestamp" ++ ": " ++ jsonStr p.timestamp ++ ", " ++
    jsonStr "vehicle" ++ ": " ++ jsonObjFlat p.vehicle ++ ", " ++
    jsonStr "system" ++ ": " ++ jsonObjFlat p.system ++
  "\x7d"

/-- `generate_vehicle_qr_data`, lines 50-73, with the `uuid.uuid4()` and
`datetime.utcnow().isoformat()` values passed in explicitly. -/
def generate_vehicle_qr_data (uuid now : String)
    (data : List (String × String)) : String :=
  dumpsPayload (mkVehiclePayload uuid now data)

/-! ### Error-correction mapping, src/app/main.py lines 101-115 and 183-195 -/

/-- The four `qrcode.constants.ERROR_CORRECT_*` values. -/
inductive ECLevel
  | L
  | M
  | Q
  | H
deriving DecidableEq, Repr

/-- The `error_map` dict, identical in both handlers. -/
def error_map : List (String × ECLevel) :=
  [("L", ECLevel.L), ("M", ECLevel.M), ("Q", ECLevel.Q), ("H", ECLevel.H)]

/-- Python `str.upper()`, character by character (the four relevant keys and
every realistic query value are ASCII, where the two agree). -/
def pyUpper (s : String) : String := String.mk (s.data.map Char.toUpper)

/-- `error_map.get(error_correction.upper(), ERROR_CORRECT_L)`. -/
def mapErrorCorrection (error_correction : String) : ECLevel :=
  (error_map.lookup (pyUpper error_correction)).getD ECLevel.L

/-! ### The encoder invocation, modelled abstractly -/

/-- The constructor arguments of `qrcode.QRCode(...)`. -/
structure QRConfig where
  version : Int
  error_correction : ECLevel
  box_size : Int
  border : Int
deriving DecidableEq, Repr

/-- One invocation of the external encoder: the exact text given to
`qr.add_data` plus the configuration and the two colors given to
`qr.make_image`. -/
structure EncodeCall where
  payload : String
  config : QRConfig
  fill_color : String
  back_color : String
deriving DecidableEq, Repr

/-- A successful `StreamingResponse` with its transport metadata. -/
structure StreamedImage where
  encode : EncodeCall
  media_type : String
  content_disposition : String
deriving DecidableEq, Repr

/-! ### GET /qrcode, src/app/main.py lines 75-135 -/

/-- The query parameters of `generate_qrcode`. -/
structure QrcodeParams where
  data : String
  size : Int
  border : Int
  fill_color : String
  back_color : String
  version : Int
  error_correction : String
deriving DecidableEq, Repr

/-- The declared query-parameter defaults of `generate_qrcode`. -/
def defaultQrcodeParams (data : String) : QrcodeParams :=
  { data := data, size := 10, border := 4, fill_color := "black",
    back_color := "white", version := 1, error_correction := "L" }

/-- The `Query(...)` constraints FastAPI enforces before the handler runs:
`data` has `min_length=1`, `size` and `version` have `ge=1, le=40`,
`border` has `ge=1`. -/
def qrcodeParamsValid (p : QrcodeParams) : Bool :=
  decide (1 ≤ p.data.length) && decide (1 ≤ p.size) && decide (p.size ≤ 40) &&
  decide (1 ≤ p.border) && decide (1 ≤ p.version) && decide (p.version ≤ 40)

inductive QrcodeResult
  | validationError
  | httpError (status : Nat) (detail : String)
  | ok (image : StreamedImage)
deriving DecidableEq, Repr

/-- `generate_qrcode`: FastAPI parameter validation, then the handler body.
Note that the body encodes `clean_data = sanitize_filename(data)`, not
`data` itself (line 99 and line 118 of the source). -/
def generate_qrcode (p : QrcodeParams) : QrcodeResult :=
  if qrcodeParamsValid p then
    let clean_data := sanitize_filename p.data
    QrcodeResult.ok
      { encode :=
          { payload := clean_data,
            config :=
              { version := p.version,
                error_correction := mapErrorCorrection p.error_correction,
                box_size := p.size, border := p.border },
            fill_color := p.fill_color, back_color := p.back_color },
        media_type := "image/png",
        content_disposition :=
          "attachment; filename=qrcode_" ++ clean_data ++ ".png" }
  else QrcodeResult.validationError

def QrcodeResult.encodedPayload? : QrcodeResult → Option String
  | QrcodeResult.ok image => some image.encode.payload
  | _ => none

def QrcodeResult.ecLevel? : QrcodeResult → Option ECLevel
  | QrcodeResult.ok image => some image.encode.config.error_correction
  | _ => none

/-! ### POST /qrcode/vehicle, src/app/main.py lines 137-220 -/

/-- The query parameters of `generate_vehicle_qrcode`; an omitted
`description` arrives as its declared default `""`. -/
structure VehicleParams where
  brandid : String
  vehiclename : String
  modelnumber : String
  regnumber : String
  vehicletype : String
  vehiclesubtype : String
  varient : String
  transmission : String
  chasisnum : String
  enginenumber : String
  description : String
  size : Int
  border : Int
  fill_color : String
  back_color : String
  version : Int
  error_correction : String
deriving DecidableEq, Repr

/-- The `vehicle_data` dict built on lines 162-174. -/
def vehicle_data (p : VehicleParams) : List (String × String) :=
  [("brandid", p.brandid), ("vehiclename", p.vehiclename),
   ("modelnumber", p.modelnumber), ("regnumber", p.regnumber),
   ("vehicletype", p.vehicletype), ("vehiclesubtype", p.vehiclesubtype),
   ("varient", p.varient), ("transmission", p.transmission),
   ("chasisnum", p.chasisnum), ("enginenumber", p.enginenumber),
   ("description", p.description)]

/-- The numeric `Query(...)` constraints of the vehicle handler (lines
150-155): `size` and `version` in `[1,40]`, `border ≥ 1`. -/
def vehicleParamsValid (p : VehicleParams) : Bool :=
  decide (1 ≤ p.size) && decide (p.size ≤ 40) && decide (1 ≤ p.border) &&
  decide (1 ≤ p.version) && decide (p.version ≤ 40)

/-- `str(e)` for a starlette/FastAPI `HTTPException`, whose `__str__` is
`f"{self.status_code}: {self.detail}"`. -/
def httpExceptionStr (status : Nat) (detail : String) : String :=
  toString status ++ ": " ++ detail

/-- The dict returned on success (lines 206-218): the nested
`StreamingResponse`, the raw JSON payload string, the request dict, and the
generation metadata. -/
structure VehicleSuccess where
  qr_code : StreamedImage
  qr_data : String
  vehicle_info : List (String × String)
  generated_at : String
  api_version : String
deriving DecidableEq, Repr

inductive VehicleResult
  | validationError
  | httpError (status : Nat) (detail : String)
  | ok (r : VehicleSuccess)
deriving DecidableEq, Repr

/-- `generate_vehicle_qrcode`.  The whole body sits in a `try` block whose
`except Exception as e` re-raises `HTTPException(500, "Vehicle QR generation
failed: " + str(e))`.  The `raise HTTPException(400, "Missing required
vehicle data fields")` on line 177 is itself inside that `try`, and
`HTTPException` is an `Exception` subclass, so the 400 is caught on line 219
and surfaces as a 500 whose detail embeds `str(e) = "400: Missing required
vehicle data fields"`. -/
def generate_vehicle_qrcode (uuid now : String) (p : VehicleParams) :
    VehicleResult :=
  if vehicleParamsValid p then
    let d := vehicle_data p
    if validate_vehicle_data d then
      let qr_data := generate_vehicle_qr_data uuid now d
      let clean_data :=
        sanitize_filename (dictGet d "vehiclename" ++ "_" ++ dictGet d "regnumber")
      VehicleResult.ok
        { qr_code :=
            { encode :=
                { payload := qr_data,
                  config :=
                    { version := p.version,
                      error_correction := mapErrorCorrection p.error_correction,
                      box_size := p.size, border := p.border },
                  fill_color := p.fill_color, back_color := p.back_color },
              media_type := "image/png",
              content_disposition :=
                "attachment; filename=vehicle_qr_" ++ clean_data ++ ".png" },
          qr_data := qr_data,
          vehicle_info := d,
          generated_at := now,
          api_version := "2.0" }
    else
      VehicleResult.httpError 500
        ("Vehicle QR generation failed: " ++
          httpExceptionStr 400 "Missing required vehicle data fields")
  else VehicleResult.validationError

def VehicleResult.qrData? : VehicleResult → Option String
  | VehicleResult.ok r => some r.qr_data
  | _ => none

def VehicleResult.encodedPayload? : VehicleResult → Option String
  | VehicleResult.ok r => some r.qr_code.encode.payload
  | _ => none

def VehicleResult.ecLevel? : VehicleResult → Option ECLevel
  | VehicleResult.ok r => some r.qr_code.encode.config.error_correction
  | _ => none

/-! ### The registered HTTP surface -/

inductive Method
  | GET
  | POST
deriving DecidableEq, Repr

/-- Every route registered on the FastAPI app in src/app/main.py:
`@app.get("/qrcode")` (line 75) and `@app.post("/qrcode/vehicle")`
(line 137).  No other route decorator appears in the repository; the
`redoc_url="/"` documentation UI is framework-generated, not a handler. -/
def appRoutes : List (Method × String) :=
  [(Method.GET, "/qrcode"), (Method.POST, "/qrcode/vehicle")]

/-! ### The standalone barcode script, src/test.py -/

structure BarcodeScript where
  barcode_class : String
  id_value : String
  save_basename : String
deriving DecidableEq, Repr

/-- src/test.py: fetches the `code128` barcode class, instantiates it with
the fixed `id_value = "1234"`, and saves the image as `id_barcode.png`.
It registers no HTTP route and is never imported by src/app/main.py. -/
def barcodeScript : BarcodeScript :=
  { barcode_class := "code128", id_value := "1234",
    save_basename := "id_barcode" }

/-! ### Concrete inputs used by the witnesses and counterexamples -/

/-- A fully valid vehicle request: all ten required fields non-empty,
`description` omitted (its default `""`), default numeric parameters. -/
def vehicleOkParams : VehicleParams :=
  { brandid := "b1", vehiclename := "car", modelnumber := "m1",
    regnumber := "r1", vehicletype := "suv", vehiclesubtype := "mid",
    varient := "v1", transmission := "auto", chasisnum := "c1",
    enginenumber := "e1", description := "",
    size := 10, border := 4, fill_color := "black", back_color := "white",
    version := 1, error_correction := "L" }

/-- The same request with the required `brandid` supplied empty. -/
def vehicleMissingBrand : VehicleParams :=
  { vehicleOkParams with brandid := "" }

/-- A /qrcode request with `size=0`, below the declared lower bound. -/
def qrcodeBadSize : QrcodeParams :=
  { defaultQrcodeParams "x" with size := 0 }

/-- A vehicle request with `version=41`, above the declared upper bound. -/
def vehicleBadVersion : VehicleParams :=
  { vehicleOkParams with version := 41 }

/-! ### Helper lemmas about the sanitizer -/

theorem substChar_not_forbidden (c : Char) : substChar c ∉ forbiddenChars := by
  unfold substChar
  split
  · decide
  · next h => exact h

theorem substChar_idem (c : Char) : substChar (substChar c) = substChar c := by
  by_cases h : c ∈ forbiddenChars
  · simp only [substChar, if_pos h]
    decide
  · simp only [substChar, if_neg h]

theorem map_substChar_idem (l : List Char) :
    (l.map substChar).map substChar = l.map substChar := by
  rw [List.map_map]
  exact List.map_congr_left (fun a _ => substChar_idem a)

theorem sanitize_filename_length (s : String) :
    (sanitize_filename s).length = min 100 s.length := by
  show ((s.data.map substChar).take 100).length = min 100 s.length
  rw [List.length_take, List.length_map]
  rfl

/-! ### Claims about the sanitizer -/

/-- C5: on every input, sanitize_filename substitutes an underscore for each
occurrence of the nine characters of the class of the regex on line 38
(position by position, which is what the map by substChar states), and its
output contains none of those characters.  It is a total Lean function, so it
is deterministic and defined on every string; the third conjunct records the
empty-string case explicitly. -/
theorem c5_sanitize_replaces_forbidden (s : String) :
    (sanitize_filename s).data = (s.data.take 100).map substChar ∧
    ((sanitize_filename s).data.all (fun c => !(decide (c ∈ forbiddenChars)))) = true ∧
    sanitize_filename "" = "" := by
  refine ⟨?_, ?_, rfl⟩
  · show (s.data.map substChar).take 100 = (s.data.take 100).map substChar
    rw [List.map_take]
  · rw [List.all_eq_true]
    intro c hc
    have hc2 : c ∈ s.data.map substChar := List.mem_of_mem_take hc
    obtain ⟨y, _, rfl⟩ := List.mem_map.mp hc2
    simpa using substChar_not_forbidden y

/-- C6: for inputs longer than 100 characters the sanitizer output has length
exactly 100 and is the 100-character prefix of the substituted string; for
inputs of length at most 100 the output keeps the input's length. -/
theorem c6_sanitize_length (s : String) :
    (100 < s.length →
      (sanitize_filename s).length = 100 ∧
      (sanitize_filename s).data = (s.data.map substChar).take 100) ∧
    (s.length ≤ 100 → (sanitize_filename s).length = s.length) := by
  constructor
  · intro h
    refine ⟨?_, rfl⟩
    rw [sanitize_filename_length]
    omega
  · intro h
    rw [sanitize_filename_length]
    omega

/-- Witness for C6 at a 101-character input and at a 2-character input. -/
theorem c6_sanitize_length_witness :
    (sanitize_filename (String.mk (List.replicate 101 'a'))).length = 100 ∧
    (sanitize_filename "ab").length = "ab".length :=
  ⟨((c6_sanitize_length (String.mk (List.replicate 101 'a'))).1 (by decide)).1,
   (c6_sanitize_length "ab").2 (by decide)⟩

/-- C9: sanitize_filename is idempotent: a second application substitutes
nothing (the output has no forbidden characters) and truncates nothing (the
output is already at most 100 characters long). -/
theorem c9_sanitize_idempotent (s : String) :
    sanitize_filename (sanitize_filename s) = sanitize_filename s := by
  show String.mk ((((s.data.map substChar).take 100).map substChar).take 100)
      = String.mk ((s.data.map substChar).take 100)
  rw [List.map_take, map_substChar_idem, List.take_take, Nat.min_self]

/-! ### Error-correction-mapping lemma -/

theorem lookup_error_map_fallback (u : String) (h1 : u ≠ "L") (h2 : u ≠ "M")
    (h3 : u ≠ "Q") (h4 : u ≠ "H") :
    (error_map.lookup u).getD ECLevel.L = ECLevel.L := by
  have e1 : (u == "L") = false := beq_eq_false_iff_ne.mpr h1
  have e2 : (u == "M") = false := beq_eq_false_iff_ne.mpr h2
  have e3 : (u == "Q") = false := beq_eq_false_iff_ne.mpr h3
  have e4 : (u == "H") = false := beq_eq_false_iff_ne.mpr h4
  simp [error_map, List.lookup, e1, e2, e3, e4]

/-- C7: the error-correction string is uppercased and looked up in the
four-entry map, so the lowercase letters map to their uppercase levels, any
string whose uppercasing is none of the four letters falls back to level L
instead of being rejected, and both handlers hand exactly this mapped level
to the encoder configuration. -/
theorem c7_error_correction_mapping :
    (mapErrorCorrection "l" = ECLevel.L ∧ mapErrorCorrection "m" = ECLevel.M ∧
     mapErrorCorrection "q" = ECLevel.Q ∧ mapErrorCorrection "h" = ECLevel.H) ∧
    (∀ ec : String,
        pyUpper ec ≠ "L" → pyUpper ec ≠ "M" → pyUpper ec ≠ "Q" →
        pyUpper ec ≠ "H" → mapErrorCorrection ec = ECLevel.L) ∧
    (∀ p : QrcodeParams, qrcodeParamsValid p = true →
        (generate_qrcode p).ecLevel?
          = some (mapErrorCorrection p.error_correction)) ∧
    (∀ uuid now : String, ∀ p : VehicleParams,
        vehicleParamsValid p = true →
        validate_vehicle_data (vehicle_data p) = true →
        (generate_vehicle_qrcode uuid now p).ecLevel?
          = some (mapErrorCorrection p.error_correction)) := by
  refine ⟨⟨by decide, by decide, by decide, by decide⟩, ?_, ?_, ?_⟩
  · intro ec h1 h2 h3 h4
    exact lookup_error_map_fallback (pyUpper ec) h1 h2 h3 h4
  · intro p hv
    simp [generate_qrcode, hv, QrcodeResult.ecLevel?]
  · intro uuid now p hv hval
    simp [generate_vehicle_qrcode, hv, hval, VehicleResult.ecLevel?]

/-- Witness for C7: an unrecognized string falls back to L, and both
handlers carry the mapped level on concrete valid requests. -/
theorem c7_error_correction_mapping_witness :
    mapErrorCorrection "x" = ECLevel.L ∧
    (generate_qrcode (defaultQrcodeParams "HELLO")).ecLevel?
      = some (mapErrorCorrection "L") ∧
    (generate_vehicle_qrcode "u" "t" vehicleOkParams).ecLevel?
      = some (mapErrorCorrection "L") :=
  ⟨c7_error_correction_mapping.2.1 "x" (by decide) (by decide) (by decide)
      (by decide),
   c7_error_correction_mapping.2.2.1 (defaultQrcodeParams "HELLO") (by decide),
   c7_error_correction_mapping.2.2.2 "u" "t" vehicleOkParams (by decide)
      (by decide)⟩

/-- C4: a size or version outside [1,40] or a border below 1, on either
endpoint, and an empty data string on /qrcode, make the declared parameter
constraints fail, so the request ends as a validation error: the handler
body never runs and no encoder call is built. -/
theorem c4_out_of_bounds_rejected :
    (∀ p : QrcodeParams,
        p.size < 1 ∨ 40 < p.size ∨ p.version < 1 ∨ 40 < p.version ∨
          p.border < 1 ∨ p.data = "" →
        generate_qrcode p = QrcodeResult.validationError) ∧
    (∀ uuid now : String, ∀ p : VehicleParams,
        p.size < 1 ∨ 40 < p.size ∨ p.version < 1 ∨ 40 < p.version ∨
          p.border < 1 →
        generate_vehicle_qrcode uuid now p = VehicleResult.validationError) := by
  constructor
  · intro p h
    have hv : qrcodeParamsValid p = false := by
      rcases h with h | h | h | h | h | h
      · simp [qrcodeParamsValid, decide_eq_false (by omega : ¬ (1 ≤ p.size))]
      · simp [qrcodeParamsValid, decide_eq_false (by omega : ¬ (p.size ≤ 40))]
      · simp [qrcodeParamsValid, decide_eq_false (by omega : ¬ (1 ≤ p.version))]
      · simp [qrcodeParamsValid, decide_eq_false (by omega : ¬ (p.version ≤ 40))]
      · simp [qrcodeParamsValid, decide_eq_false (by omega : ¬ (1 ≤ p.border))]
      · have hlen : p.data.length = 0 := by rw [h]; rfl
        simp [qrcodeParamsValid,
          decide_eq_false (by omega : ¬ (1 ≤ p.data.length))]
    simp [generate_qrcode, hv]
  · intro uuid now p h
    have hv : vehicleParamsValid p = false := by
      rcases h with h | h | h | h | h
      · simp [vehicleParamsValid, decide_eq_false (by omega : ¬ (1 ≤ p.size))]
      · simp [vehicleParamsValid, decide_eq_false (by omega : ¬ (p.size ≤ 40))]
      · simp [vehicleParamsValid, decide_eq_false (by omega : ¬ (1 ≤ p.version))]
      · simp [vehicleParamsValid, decide_eq_false (by omega : ¬ (p.version ≤ 40))]
      · simp [vehicleParamsValid, decide_eq_false (by omega : ¬ (1 ≤ p.border))]
    simp [generate_vehicle_qrcode, hv]

/-- Witness for C4: size=0 on /qrcode and version=41 on the vehicle
endpoint are both rejected. -/
theorem c4_out_of_bounds_rejected_witness :
    generate_qrcode qrcodeBadSize = QrcodeResult.validationError ∧
    generate_vehicle_qrcode "u" "t" vehicleBadVersion
      = VehicleResult.validationError :=
  ⟨c4_out_of_bounds_rejected.1 qrcodeBadSize (Or.inl (by decide)),
   c4_out_of_bounds_rejected.2 "u" "t" vehicleBadVersion
     (Or.inr (Or.inr (Or.inr (Or.inl (by decide)))))⟩

/-! ### Claims about the vehicle payload -/

/-- C8: on a vehicle request with every required field non-empty and
description left at its declared default (the empty string), the string
encoded into the QR is the JSON dump of the composed payload, whose
vehicle.description is the empty string, whose id is the per-request
uuid4 value, whose timestamp is the per-request utcnow reading, and whose
system object carries generated_by and version. -/
theorem c8_vehicle_payload (uuid now : String) (p : VehicleParams)
    (hb : vehicleParamsValid p = true)
    (hd : p.description = "")
    (hv : validate_vehicle_data (vehicle_data p) = true) :
    (generate_vehicle_qrcode uuid now p).qrData?
      = some (dumpsPayload (mkVehiclePayload uuid now (vehicle_data p))) ∧
    (generate_vehicle_qrcode uuid now p).encodedPayload?
      = some (dumpsPayload (mkVehiclePayload uuid now (vehicle_data p))) ∧
    (mkVehiclePayload uuid now (vehicle_data p)).id = uuid ∧
    (mkVehiclePayload uuid now (vehicle_data p)).timestamp = now ∧
    (mkVehiclePayload uuid now (vehicle_data p)).vehicle.lookup "description"
      = some "" ∧
    (mkVehiclePayload uuid now (vehicle_data p)).system
      = [("generated_by", "QR Code API"), ("version", "2.0")] := by
  refine ⟨?_, ?_, rfl, rfl, ?_, rfl⟩
  · simp [generate_vehicle_qrcode, hb, hv, generate_vehicle_qr_data,
      VehicleResult.qrData?]
  · simp [generate_vehicle_qrcode, hb, hv, generate_vehicle_qr_data,
      VehicleResult.encodedPayload?]
  · have h5 : (mkVehiclePayload uuid now (vehicle_data p)).vehicle.lookup
        "description" = some p.description := rfl
    rw [hd] at h5
    exact h5

/-- Witness for C8 on a concrete fully-filled request. -/
theorem c8_vehicle_payload_witness :
    (mkVehiclePayload "u" "t" (vehicle_data vehicleOkParams)).id = "u" ∧
    (mkVehiclePayload "u" "t" (vehicle_data vehicleOkParams)).vehicle.lookup
      "description" = some "" :=
  ⟨(c8_vehicle_payload "u" "t" vehicleOkParams (by decide) rfl (by decide)).2.2.1,
   (c8_vehicle_payload "u" "t" vehicleOkParams (by decide) rfl
      (by decide)).2.2.2.2.1⟩

/-- C10: the vehicle object of the QR payload uses the renamed keys, in this
fixed order for every request, each carrying the corresponding request
field, and none of the nine differently-spelt request parameter names occurs
among its keys. -/
theorem c10_vehicle_payload_keys (uuid now : String) (p : VehicleParams) :
    ((mkVehiclePayload uuid now (vehicle_data p)).vehicle.map Prod.fst
      = ["brand", "name", "model", "reg", "type", "subtype", "variant",
         "transmission", "chassis", "engine", "description"]) ∧
    (mkVehiclePayload uuid now (vehicle_data p)).vehicle.lookup "brand"
      = some p.brandid ∧
    (mkVehiclePayload uuid now (vehicle_data p)).vehicle.lookup "name"
      = some p.vehiclename ∧
    (mkVehiclePayload uuid now (vehicle_data p)).vehicle.lookup "model"
      = some p.modelnumber ∧
    (mkVehiclePayload uuid now (vehicle_data p)).vehicle.lookup "reg"
      = some p.regnumber ∧
    (mkVehiclePayload uuid now (vehicle_data p)).vehicle.lookup "type"
      = some p.vehicletype ∧
    (mkVehiclePayload uuid now (vehicle_data p)).vehicle.lookup "subtype"
      = some p.vehiclesubtype ∧
    (mkVehiclePayload uuid now (vehicle_data p)).vehicle.lookup "variant"
      = some p.varient ∧
    (mkVehiclePayload uuid now (vehicle_data p)).vehicle.lookup "transmission"
      = some p.transmission ∧
    (mkVehiclePayload uuid now (vehicle_data p)).vehicle.lookup "chassis"
      = some p.chasisnum ∧
    (mkVehiclePayload uuid now (vehicle_data p)).vehicle.lookup "engine"
      = some p.enginenumber ∧
    (mkVehiclePayload uuid now (vehicle_data p)).vehicle.lookup "description"
      = some p.description ∧
    ((["brandid", "vehiclename", "modelnumber", "regnumber", "vehicletype",
        "vehiclesubtype", "varient", "chasisnum", "enginenumber"].all
        (fun k =>
          !(((mkVehiclePayload uuid now (vehicle_data p)).vehicle.map
              Prod.fst).contains k))) = true) :=
  ⟨rfl, rfl, rfl, rfl, rfl, rfl, rfl, rfl, rfl, rfl, rfl, rfl, rfl⟩

/-! ### Claims settled against the code by evaluation -/

/-- C1 (code bug at src/app/main.py lines 177 and 219-220): with the
required brandid supplied empty, the handler's own
HTTPException(400, "Missing required vehicle data fields") is raised inside
the try block, caught by the blanket except, and re-raised as a 500 whose
detail wraps str(e); the documented 400 response never reaches the client,
though no encoding work is performed. -/
theorem c1_missing_field_maps_to_500 :
    generate_vehicle_qrcode "u" "t" vehicleMissingBrand
      = VehicleResult.httpError 500
          "Vehicle QR generation failed: 400: Missing required vehicle data fields" ∧
    generate_vehicle_qrcode "u" "t" vehicleMissingBrand
      ≠ VehicleResult.httpError 400 "Missing required vehicle data fields" :=
  ⟨by decide, by decide⟩

/-- C2 (code bug at src/app/main.py lines 99 and 118): the /qrcode handler
passes clean_data, the sanitized string, to qr.add_data, so the text encoded
into the QR symbol for data containing a forbidden character differs from
the supplied data; for data such as HELLO, which the sanitizer leaves
unchanged, the encoded text does equal the supplied data. -/
theorem c2_qrcode_encodes_sanitized_data :
    (generate_qrcode (defaultQrcodeParams "A/B")).encodedPayload?
      = some "A_B" ∧
    (generate_qrcode (defaultQrcodeParams "A/B")).encodedPayload?
      ≠ some "A/B" ∧
    (generate_qrcode (defaultQrcodeParams "HELLO")).encodedPayload?
      = some "HELLO" :=
  ⟨by decide, by decide, by decide⟩

/-- C3 counterexample: no route named /barcode is registered on the app, so
the HTTP surface has no GET /barcode endpoint. -/
theorem c3_no_barcode_route :
    ((appRoutes.map Prod.snd).contains "/barcode") = false := by decide

/-- C3 amended: the HTTP surface consists exactly of GET /qrcode and
POST /qrcode/vehicle; Code128 barcode generation exists only as the
standalone script src/test.py, which saves the barcode of the fixed id 1234
to the local file id_barcode.png and serves nothing over HTTP. -/
theorem c3_http_surface_and_script :
    appRoutes = [(Method.GET, "/qrcode"), (Method.POST, "/qrcode/vehicle")] ∧
    barcodeScript
      = { barcode_class := "code128", id_value := "1234",
          save_basename := "id_barcode" } :=
  ⟨rfl, rfl⟩
